import Mathlib

/-!
Verification of the mu-psd-07 debate-chat server (src/app.py) against its
natural-language specification.  The Flask endpoints /send_api and /end_debate
are embedded as pure functions over explicit request values and an explicit
backend (the OpenRouter chat-completions call is a function parameter, applied
exactly once per request).  Components the spec describes but that have no code
under src/ (the Role Adapter, the streaming Completion Pipeline, the Message
Store) are modelled from the spec and marked as such.
-/

namespace MuPsd07

deriving instance DecidableEq for Except

/-- Whitespace test used to embed Python str.strip (space, tab, newline, carriage return). -/
def isWs (c : Char) : Bool := c = ' ' || c = '\t' || c = '\n' || c = '\r'

/-- Embedding of Python str.strip(): remove leading and trailing whitespace. -/
def pyStrip (s : String) : String :=
  String.mk (((s.data.dropWhile isWs).reverse.dropWhile isWs).reverse)

/-- app.py line 20: the built-in default system prompt. -/
def DEFAULT_SYSTEM_PROMPT : String :=
  "あなたは親切なアシスタントです。丁寧な言葉遣いで、140字以内で簡潔に回答してください。"

/-- app.py line 21: the model identifier sent with every completion request. -/
def DEFAULT_MODEL : String := "google/gemma-3-27b-it:free"

/-- app.py line 108: placeholder returned by /send_api when the reply has no usable content. -/
def NO_REPLY_PLACEHOLDER : String := "AIから有効な応答がありませんでした。"

/-- A JSON-dict chat message as received and sent by app.py: an association list
of string fields (Python dict).  Field lookup returns the first binding. -/
structure RawMsg where
  entries : List (String × String)
deriving DecidableEq

/-- Python msg.get(k): the field value if the key is present. -/
def RawMsg.get? (m : RawMsg) (k : String) : Option String := m.entries.lookup k

/-- Python `k in msg`: key-presence test. -/
def RawMsg.hasKey (m : RawMsg) (k : String) : Bool := (m.entries.lookup k).isSome

/-- The dict literal used throughout app.py. -/
def RawMsg.mk2 (r c : String) : RawMsg := ⟨[("role", r), ("content", c)]⟩

/-- An HTTP response as produced by the handlers: status code plus a JSON object
body of string fields (jsonify).  Successful jsonify defaults to status 200. -/
abbrev Response := Nat × List (String × String)

/-- Outcome of one client.chat.completions.create call.  `success` carries the
choices list, each choice abstracted to its message content (`none` when the
message or its content is null); `apiError` is openai.APIError with its
optional status_code and message; `otherError` is any other exception. -/
inductive ApiOutcome where
  | success (choices : List (Option String))
  | apiError (statusCode : Option Nat) (message : String)
  | otherError (message : String)
deriving DecidableEq

/-- A backend for chat completions: messages and model id to one outcome.  Each
handler applies its backend exactly once per request, so there is no retry. -/
abbrev Backend := List RawMsg → String → ApiOutcome

/-- Python `e.status_code or 500` (None and 0 are falsy). -/
def statusOr500 : Option Nat → Nat
  | some s => if s = 0 then 500 else s
  | none => 500

/-- Python f-string rendering of e.status_code. -/
def statusRepr : Option Nat → String
  | some s => toString s
  | none => "None"

/-- app.py lines 103-108 of send_api: take choices[0].message.content when the
choices list is nonempty and the content is non-null and nonempty (Python
truthiness), strip it; otherwise substitute the fixed placeholder. -/
def processedText (choices : List (Option String)) : String :=
  match choices with
  | some s :: _ => if s = "" then NO_REPLY_PLACEHOLDER else pyStrip s
  | _ => NO_REPLY_PLACEHOLDER

/-- app.py lines 96-118: the try/except around the completion call in send_api,
as a function of the single backend outcome. -/
def sendApiHandle : ApiOutcome → Response
  | .success choices =>
      (200, [("message", "AIによってデータが処理されました。"),
             ("processed_text", processedText choices)])
  | .apiError st _ =>
      (statusOr500 st,
       [("error", "AIサービスでエラーが発生しました。ステータスコード: " ++ statusRepr st)])
  | .otherError _ =>
      (500, [("error", "AIサービスとの通信中にエラーが発生しました。")])

/-- The JSON body of a /send_api request.  `messagesField`: `none` means the
key is absent, `some none` means present but not a JSON list, `some (some ms)`
a JSON list.  Wrapping the whole request in `Option` (see `parseSendApi`)
models a missing or falsy (empty-object) body. -/
structure SendApiRequest where
  messagesField : Option (Option (List RawMsg))
  textField : Option String
  contextField : Option String
deriving DecidableEq

/-- app.py lines 62-94 of send_api: request validation and construction of the
message list, ending in a 400 response or in the messages for the API call. -/
def parseSendApi : Option SendApiRequest → Except Response (List RawMsg)
  | none => .error (400, [("error", "Request JSON is missing")])
  | some d =>
    match d.messagesField with
    | some (some ms) =>
        if ms.isEmpty then
          .error (400, [("error", "\x27messages\x27 array cannot be empty")])
        else if ms.all (fun m => m.hasKey "role" && m.hasKey "content") then
          .ok ms
        else
          .error (400, [("error", "Each message must have \x27role\x27 and \x27content\x27")])
    | _ =>
      match d.textField with
      | some t =>
          if pyStrip t = "" then
            .error (400, [("error", "Input text cannot be empty")])
          else
            .ok [RawMsg.mk2 "system"
                   (if pyStrip (d.contextField.getD "") = "" then DEFAULT_SYSTEM_PROMPT
                    else pyStrip (d.contextField.getD "")),
                 RawMsg.mk2 "user" (pyStrip t)]
      | none =>
          .error (400,
            [("error", "Request must contain either \x27messages\x27 array or \x27text\x27 field")])

/-- app.py lines 55-118: the /send_api handler.  Validation happens before the
backend is consulted; on success the parsed messages are passed to the backend
unchanged, together with DEFAULT_MODEL, and the single outcome is handled. -/
def sendApi (req : Option SendApiRequest) (backend : Backend) : Response :=
  match parseSendApi req with
  | .error r => r
  | .ok ms => sendApiHandle (backend ms DEFAULT_MODEL)

/-- app.py lines 201-204: feedback system prompt used when the conversation is short. -/
def shortFeedbackPrompt : String :=
  "あなたはディベートのコーチです。いかなる場合でも、挨拶、相槌、前置き（「しかし、」「一方で、」など）、そしてあなた自身の立場を示す言葉（例:【否定派】）を一切含めず、文章の最初から評価の核心部分だけを記述してください。\n提供された会話履歴を読み、ディベートの参加者を励ます短いメッセージを作成してください。\n会話がまだ始まったばかりであることを踏まえ、最初の意見交換を称賛し、今後の議論への期待感を示す、ポジティブで短いコメントをお願いします。\n"

/-- app.py lines 207-219: feedback system prompt used when the conversation is long enough. -/
def detailedFeedbackPrompt : String :=
  "あなたはディベートのコーチです。いかなる場合でも、挨拶、相槌、前置き（「しかし、」「一方で、」など）、そしてあなた自身の立場を示す言葉（例:【否定派】）を一切含めず、文章の最初から評価の核心部分だけを記述してください。\n提供されたディベートの会話履歴全体を分析し、建設的なフィードバックを提供してください。\n\n以下の手順に従って、フィードバックを作成してください。\n\n1.  **全体的な評価**: まず、ディベート全体の簡単な総評を述べてください。\n2.  **評価項目**: 次に、以下の3つの観点について、それぞれ100点満点で採点し、その点数を付けた理由を簡潔に説明してください。\n    *   **論理の一貫性**: 主張や議論に矛盾がなく、一貫していたか。\n    *   **説得力**: 提示された根拠や例が主張を効果的に裏付けていたか。\n    *   **反論の質**: 相手の意見の要点を的確に捉え、有効な反論ができていたか。\n3.  **改善点**: 最後に、今後のディベートでさらに議論を深めるための具体的なアドバイスや改善点を1〜2点挙げてください。\n4.  **締め**: 全体をポジティブな言葉で締めくくってください。\n"

/-- app.py line 247: default message when the AI feedback comes back empty. -/
def EMPTY_FEEDBACK_MESSAGE : String :=
  "AIからのフィードバックがありませんでした。会話が短すぎるか、内容を解釈できなかった可能性があります。"

/-- app.py lines 231-259: the try/except around the feedback completion call in
end_debate.  Line 238 dereferences choices[0].message.content without a guard,
so empty choices or a null message/content raise there and are caught by the
generic except clause (500); empty-string content strips to empty and is
replaced by EMPTY_FEEDBACK_MESSAGE. -/
def endDebateHandle : ApiOutcome → Response
  | .success (some s :: _) =>
      (200, [("feedback",
              if (if s = "" then "" else pyStrip s) = "" then EMPTY_FEEDBACK_MESSAGE
              else pyStrip s)])
  | .success _ =>
      (500, [("error", "フィードバックの生成中に予期せぬサーバーエラーが発生しました。")])
  | .apiError st _ =>
      (statusOr500 st,
       [("error", "フィードバック生成中にAIサービスでエラーが発生しました。ステータスコード: " ++ statusRepr st)])
  | .otherError _ =>
      (500, [("error", "フィードバックの生成中に予期せぬサーバーエラーが発生しました。")])

/-- app.py line 196: count of user-role messages in the submitted history. -/
def userMessageCount (history : List RawMsg) : Nat :=
  history.countP (fun m => m.get? "role" == some "user")

/-- app.py lines 184-259: the /end_debate handler.  `none` models a missing or
falsy body, `some none` a body without a messages key.  Line 222 builds
[system prompt] ++ history into messages_for_feedback, and line 229 then
rebinds messages_for_feedback to the one-element list [system prompt], which is
what the backend is called with. -/
def endDebate (req : Option (Option (List RawMsg))) (backend : Backend) : Response :=
  match req with
  | none => (400, [("error", "Request must contain \x27messages\x27")])
  | some none => (400, [("error", "Request must contain \x27messages\x27")])
  | some (some history) =>
      let feedbackSystemPrompt :=
        if userMessageCount history < 3 then shortFeedbackPrompt else detailedFeedbackPrompt
      let messagesForFeedback := RawMsg.mk2 "system" feedbackSystemPrompt :: history
      let messagesForFeedback := [RawMsg.mk2 "system" feedbackSystemPrompt]
      endDebateHandle (backend messagesForFeedback DEFAULT_MODEL)

/-- Modelled from the spec: the Role Adapter (§4.2) has no code under src/ —
src/app.py sends message lists to the backend unchanged.  This definition
follows the spec algorithm verbatim, so it can be compared with what send_api
actually sends: rewrite each system message to a user message and, when the
next canonical message is not an assistant message (or there is none), insert
a synthetic empty assistant message right after it. -/
def setRole (m : RawMsg) (r : String) : RawMsg :=
  ⟨("role", r) :: m.entries.filter (fun p => !(p.1 == "role"))⟩

/-- Modelled from the spec: the synthetic empty assistant message of §4.2. -/
def emptyAssistantMsg : RawMsg := RawMsg.mk2 "assistant" ""

/-- Modelled from the spec: the Role Adapter transform of §4.2 (absent from src/). -/
def roleAdapterSpec : List RawMsg → List RawMsg
  | [] => []
  | m :: rest =>
    if m.get? "role" = some "system" then
      setRole m "user" ::
        (match rest with
         | n :: _ =>
             if n.get? "role" = some "assistant" then roleAdapterSpec rest
             else emptyAssistantMsg :: roleAdapterSpec rest
         | [] => [emptyAssistantMsg])
    else m :: roleAdapterSpec rest

/-- Modelled from the spec: Completion Pipeline (§4.3) streaming mode, which has
no code under src/.  A deterministic backend stub is abstracted to the list of
fragments it delivers; streaming yields exactly those fragments in delivery
order. -/
def completeStreaming (fragments : List String) : List String := fragments

/-- Modelled from the spec: the final reply text of a streamed completion is the
concatenation of the delivered fragments (§4.3). -/
def finalReplyText (fragments : List String) : String := String.join fragments

/-- Modelled from the spec: §4.3 non-streaming mode returns a single fragment
equal to the full reply text trimmed of leading/trailing whitespace, with a
fixed placeholder substituted when there is no usable content — the same rule
send_api implements at lines 103-108 (processedText). -/
def completeNonStreaming (fragments : List String) : String :=
  processedText [some (finalReplyText fragments)]

/-- Modelled from the spec: the Message Store snapshot (§4.1, §6) — a mapping
from session id to an ordered history of {role, content} pairs.  No persistence
code exists under src/. -/
abbrev StoreSnapshot := List (String × List (String × String))

/-- Unary-encoded natural number: n hash marks closed by a colon. -/
def encN (n : Nat) : List Char := List.replicate n '#' ++ [':']

/-- Length-prefixed string encoding. -/
def encStr (s : String) : List Char := encN s.data.length ++ s.data

/-- Encoding of one {role, content} pair. -/
def encMsgPair (p : String × String) : List Char := encStr p.1 ++ encStr p.2

/-- Count-prefixed list encoding. -/
def encList (enc : α → List Char) (l : List α) : List Char :=
  encN l.length ++ (l.map enc).flatten

/-- Encoding of one session: its id then its history. -/
def encSession (p : String × List (String × String)) : List Char :=
  encStr p.1 ++ encList encMsgPair p.2

/-- Modelled from the spec: serialization of one whole snapshot (§4.1 save
round-trips the entire mapping). -/
def encodeStore (st : StoreSnapshot) : List Char := encList encSession st

/-- Decoder for `encN`; fails on input that does not continue with a colon. -/
def decN (cs : List Char) : Option (Nat × List Char) :=
  match cs.dropWhile (· == '#') with
  | ':' :: rest => some ((cs.takeWhile (· == '#')).length, rest)
  | _ => none

/-- Decoder for `encStr`; fails when fewer characters remain than announced. -/
def decStr (cs : List Char) : Option (String × List Char) := do
  let (n, cs1) ← decN cs
  if (cs1.take n).length = n then some (String.mk (cs1.take n), cs1.drop n) else none

/-- Decoder for `encMsgPair`. -/
def decMsgPair (cs : List Char) : Option ((String × String) × List Char) := do
  let (r, cs1) ← decStr cs
  let (c, cs2) ← decStr cs1
  some ((r, c), cs2)

/-- Decode exactly n consecutive elements. -/
def decCount (dec : List Char → Option (α × List Char)) :
    Nat → List Char → Option (List α × List Char)
  | 0, cs => some ([], cs)
  | n + 1, cs => do
      let (a, cs1) ← dec cs
      let (tl, cs2) ← decCount dec n cs1
      some (a :: tl, cs2)

/-- Decoder for `encList`. -/
def decList (dec : List Char → Option (α × List Char)) (cs : List Char) :
    Option (List α × List Char) := do
  let (n, cs1) ← decN cs
  decCount dec n cs1

/-- Decoder for `encSession`. -/
def decSession (cs : List Char) : Option ((String × List (String × String)) × List Char) := do
  let (id, cs1) ← decStr cs
  let (msgs, cs2) ← decList decMsgPair cs1
  some ((id, msgs), cs2)

/-- Modelled from the spec: parsing a persisted snapshot; malformed or trailing
data makes it fail, like json.loads on a corrupt file. -/
def decodeStore (cs : List Char) : Option StoreSnapshot := do
  let (st, rest) ← decList decSession cs
  if rest.isEmpty then some st else none

/-- State of the persistence medium: file absent, unreadable (I/O error on
read), or readable with some byte contents. -/
inductive Medium where
  | absent
  | unreadable
  | stored (contents : List Char)
deriving DecidableEq

/-- Modelled from the spec: Message Store load() (§4.1) — fails soft.  If the
medium is absent, unreadable, or holds data the decoder rejects, it returns the
empty mapping instead of raising; it is a total function, so it never raises. -/
def loadStore : Medium → StoreSnapshot
  | .absent => []
  | .unreadable => []
  | .stored s => (decodeStore s).getD []

/-- app.py lines 62-94: the exact class of /send_api requests rejected with 400
before any backend call: a missing or falsy body; a messages list that is empty
or has an entry lacking a role or content key; or, when no usable messages list
is given, a missing or whitespace-only text field. -/
def isBadSendApiRequest : Option SendApiRequest → Bool
  | none => true
  | some d =>
    match d.messagesField with
    | some (some ms) =>
        ms.isEmpty || ms.any (fun m => !(m.hasKey "role" && m.hasKey "content"))
    | _ =>
        match d.textField with
        | some t => pyStrip t == ""
        | none => true

theorem dropWhile_encN (n : Nat) (rest : List Char) :
    (List.replicate n '#' ++ ':' :: rest).dropWhile (· == '#') = ':' :: rest := by
  induction n with
  | zero => simp [List.dropWhile]
  | succ k ih => simp [List.replicate_succ, List.dropWhile, ih]

theorem takeWhile_encN (n : Nat) (rest : List Char) :
    (List.replicate n '#' ++ ':' :: rest).takeWhile (· == '#') = List.replicate n '#' := by
  induction n with
  | zero => simp [List.takeWhile]
  | succ k ih => simp [List.replicate_succ, List.takeWhile, ih]

theorem decN_encN (n : Nat) (rest : List Char) :
    decN (encN n ++ rest) = some (n, rest) := by
  simp [decN, encN, List.append_assoc, dropWhile_encN, takeWhile_encN]

theorem decStr_encStr (s : String) (rest : List Char) :
    decStr (encStr s ++ rest) = some (s, rest) := by
  simp [decStr, encStr, List.append_assoc, decN_encN]

theorem decMsgPair_encMsgPair (p : String × String) (rest : List Char) :
    decMsgPair (encMsgPair p ++ rest) = some (p, rest) := by
  simp [decMsgPair, encMsgPair, List.append_assoc, decStr_encStr]

theorem decCount_encs {α : Type} (dec : List Char → Option (α × List Char))
    (enc : α → List Char) (hd : ∀ a rest, dec (enc a ++ rest) = some (a, rest))
    (l : List α) (rest : List Char) :
    decCount dec l.length ((l.map enc).flatten ++ rest) = some (l, rest) := by
  induction l generalizing rest with
  | nil => simp [decCount]
  | cons a tl ih => simp [decCount, List.append_assoc, hd, ih]

theorem decList_encList {α : Type} (dec : List Char → Option (α × List Char))
    (enc : α → List Char) (hd : ∀ a rest, dec (enc a ++ rest) = some (a, rest))
    (l : List α) (rest : List Char) :
    decList dec (encList enc l ++ rest) = some (l, rest) := by
  simp [decList, encList, List.append_assoc, decN_encN, decCount_encs dec enc hd]

theorem decSession_encSession (p : String × List (String × String)) (rest : List Char) :
    decSession (encSession p ++ rest) = some (p, rest) := by
  simp [decSession, encSession, List.append_assoc, decStr_encStr,
    decList_encList decMsgPair encMsgPair decMsgPair_encMsgPair]

/-- Sanity of the snapshot model: decoding is a left inverse of encoding, so the
decoder accepts every well-formed snapshot and `loadStore` round-trips them. -/
theorem decodeStore_encodeStore (st : StoreSnapshot) :
    decodeStore (encodeStore st) = some st := by
  have h := decList_encList decSession encSession decSession_encSession st []
  simp only [List.append_nil] at h
  simp [decodeStore, encodeStore, h]

/-- C1 counterexample: whitespace-only backend content is truthy, so send_api
strips it to the empty string and returns it — an empty result IS propagated. -/
theorem send_api_whitespace_content_yields_empty_result :
    processedText [some " "] = "" ∧ (" " : String) ≠ "" := by decide

/-- C1 (amended): in non-streaming mode, usable (non-null, nonempty) content is
returned stripped of leading/trailing whitespace; empty choices, a null content
or an empty-string content yield the fixed placeholder; an empty result can
reach the caller, but only when the usable content was whitespace-only. -/
theorem send_api_nonstreaming_result_spec (choices : List (Option String)) :
    (∀ s rest, choices = some s :: rest → s ≠ "" → processedText choices = pyStrip s) ∧
    (∀ rest, choices = none :: rest → processedText choices = NO_REPLY_PLACEHOLDER) ∧
    (choices = [] → processedText choices = NO_REPLY_PLACEHOLDER) ∧
    (∀ rest, choices = some "" :: rest → processedText choices = NO_REPLY_PLACEHOLDER) ∧
    (processedText choices = "" →
      ∃ s rest, choices = some s :: rest ∧ s ≠ "" ∧ pyStrip s = "") := by
  refine ⟨?_, ?_, ?_, ?_, ?_⟩
  · rintro s rest rfl hs
    simp [processedText, hs]
  · rintro rest rfl
    simp [processedText]
  · rintro rfl
    simp [processedText]
  · rintro rest rfl
    simp [processedText]
  · intro h
    match choices, h with
    | [], h => exact absurd h (by decide)
    | none :: rest, h =>
        rw [show processedText (none :: rest) = NO_REPLY_PLACEHOLDER from rfl] at h
        exact absurd h (by decide)
    | some s :: rest, h =>
        by_cases hs : s = ""
        · rw [hs, show processedText (some "" :: rest) = NO_REPLY_PLACEHOLDER from rfl] at h
          exact absurd h (by decide)
        · rw [show processedText (some s :: rest) = pyStrip s by simp [processedText, hs]] at h
          exact ⟨s, rest, rfl, hs, h⟩

theorem send_api_nonstreaming_result_spec_witness :
    processedText [some " x "] = pyStrip " x " :=
  (send_api_nonstreaming_result_spec [some " x "]).1 " x " [] rfl (by decide)

/-- C2 counterexample: for the history [system, user], send_api hands the
backend exactly the canonical history; a backend that distinguishes the
canonical history from its Role-Adapter transform observably receives the
canonical one, so the response differs from what the claim predicts. -/
theorem send_api_wire_not_role_adapted :
    ¬ (sendApi (some ⟨some (some [RawMsg.mk2 "system" "s", RawMsg.mk2 "user" "u"]), none, none⟩)
          (fun ms _ => if ms = [RawMsg.mk2 "system" "s", RawMsg.mk2 "user" "u"]
                       then .success [some "A"] else .success [some "B"])
        = sendApiHandle
            ((fun (ms : List RawMsg) (_ : String) =>
                if ms = [RawMsg.mk2 "system" "s", RawMsg.mk2 "user" "u"]
                then ApiOutcome.success [some "A"] else ApiOutcome.success [some "B"])
              (roleAdapterSpec [RawMsg.mk2 "system" "s", RawMsg.mk2 "user" "u"])
              DEFAULT_MODEL)) := by decide

/-- C2 (amended): for every valid messages-form request, the message sequence
sent over the wire is the canonical history itself, unchanged and in order — no
role transformation is applied (system messages are sent with role system). -/
theorem send_api_wire_messages_unchanged (d : SendApiRequest) (ms : List RawMsg)
    (backend : Backend) (hm : d.messagesField = some (some ms)) (hne : ms ≠ [])
    (hv : ms.all (fun m => m.hasKey "role" && m.hasKey "content") = true) :
    sendApi (some d) backend = sendApiHandle (backend ms DEFAULT_MODEL) := by
  simp [sendApi, parseSendApi, hm, hv, hne]

theorem send_api_wire_messages_unchanged_witness :
    sendApi (some ⟨some (some [RawMsg.mk2 "user" "hi"]), none, none⟩)
        (fun _ _ => .success [some "ok"])
      = sendApiHandle ((fun _ _ => ApiOutcome.success [some "ok"])
          [RawMsg.mk2 "user" "hi"] DEFAULT_MODEL) :=
  send_api_wire_messages_unchanged _ _ _ rfl (by decide) (by decide)

/-- C3: a backend APIError with a (truthy) status code is surfaced to the caller
with exactly that status code and a fixed summary; any other exception is
surfaced as a 500 with a fixed summary.  The backend is a function applied
exactly once per request, so the failed call is terminal and never retried. -/
theorem send_api_backend_failure_surfaced (d : SendApiRequest) (ms : List RawMsg)
    (st : Nat) (emsg omsg : String)
    (hm : d.messagesField = some (some ms)) (hne : ms ≠ [])
    (hv : ms.all (fun m => m.hasKey "role" && m.hasKey "content") = true)
    (hst : st ≠ 0) :
    sendApi (some d) (fun _ _ => .apiError (some st) emsg)
      = (st, [("error", "AIサービスでエラーが発生しました。ステータスコード: " ++ statusRepr (some st))]) ∧
    sendApi (some d) (fun _ _ => .otherError omsg)
      = (500, [("error", "AIサービスとの通信中にエラーが発生しました。")]) := by
  constructor <;> simp [sendApi, parseSendApi, hm, hv, hne, sendApiHandle, statusOr500, hst]

theorem send_api_backend_failure_surfaced_witness :
    sendApi (some ⟨some (some [RawMsg.mk2 "user" "hi"]), none, none⟩)
        (fun _ _ => .apiError (some 404) "boom")
      = (404, [("error", "AIサービスでエラーが発生しました。ステータスコード: " ++ statusRepr (some 404))]) :=
  (send_api_backend_failure_surfaced _ _ 404 "boom" "x" rfl (by decide) (by decide)
    (by decide)).1

/-- C4 counterexample: the text-form request from Scenario A seeds the history
as [system, user], not [system, assistant] — the initial text becomes a user
message. -/
theorem send_api_text_form_seeds_user_not_assistant :
    parseSendApi (some ⟨none, some "Hello, I argue against X", some "Topic is X"⟩)
      = .ok [RawMsg.mk2 "system" "Topic is X", RawMsg.mk2 "user" "Hello, I argue against X"] ∧
    ([RawMsg.mk2 "system" "Topic is X", RawMsg.mk2 "user" "Hello, I argue against X"]
      ≠ [RawMsg.mk2 "system" "Topic is X", RawMsg.mk2 "assistant" "Hello, I argue against X"]) := by
  decide

/-- C4 (amended): starting a new conversation through the /send_api text form
seeds the history as exactly two messages: the (stripped) system prompt with
role system, followed by the (stripped) initial text with role user. -/
theorem send_api_text_form_seeds_system_then_user (d : SendApiRequest) (t : String)
    (hm : d.messagesField = none ∨ d.messagesField = some none)
    (ht : d.textField = some t) (hne : pyStrip t ≠ "") :
    parseSendApi (some d)
      = .ok [RawMsg.mk2 "system"
               (if pyStrip (d.contextField.getD "") = "" then DEFAULT_SYSTEM_PROMPT
                else pyStrip (d.contextField.getD "")),
             RawMsg.mk2 "user" (pyStrip t)] := by
  rcases hm with hm | hm <;> simp [parseSendApi, hm, ht, hne]

theorem send_api_text_form_seeds_system_then_user_witness :
    parseSendApi (some ⟨none, some "hello", some "ctx"⟩)
      = .ok [RawMsg.mk2 "system"
               (if pyStrip ((some "ctx").getD "") = "" then DEFAULT_SYSTEM_PROMPT
                else pyStrip ((some "ctx").getD "")),
             RawMsg.mk2 "user" (pyStrip "hello")] :=
  send_api_text_form_seeds_system_then_user _ _ (Or.inl rfl) rfl (by decide)

/-- C5: /end_debate sends the backend exactly one message — the system feedback
prompt, chosen by whether the submitted history holds fewer than 3 user-role
messages — and two histories whose user-message counts select the same prompt
produce identical backend requests and responses. -/
theorem end_debate_backend_sees_only_system_prompt (history h2 : List RawMsg)
    (backend : Backend) :
    endDebate (some (some history)) backend
      = endDebateHandle (backend
          [RawMsg.mk2 "system"
            (if userMessageCount history < 3 then shortFeedbackPrompt
             else detailedFeedbackPrompt)]
          DEFAULT_MODEL) ∧
    ((userMessageCount history < 3 ↔ userMessageCount h2 < 3) →
      endDebate (some (some history)) backend = endDebate (some (some h2)) backend) := by
  constructor
  · rfl
  · intro hiff
    by_cases hc : userMessageCount history < 3
    · simp [endDebate, hc, hiff.mp hc]
    · have hc2 : ¬ userMessageCount h2 < 3 := fun h => hc (hiff.mpr h)
      simp [endDebate, hc, hc2]

theorem end_debate_backend_sees_only_system_prompt_witness :
    endDebate (some (some [RawMsg.mk2 "user" "a"])) (fun _ _ => .success [some "ok"])
      = endDebate (some (some [RawMsg.mk2 "user" "b", RawMsg.mk2 "assistant" "c"]))
          (fun _ _ => .success [some "ok"]) :=
  (end_debate_backend_sees_only_system_prompt [RawMsg.mk2 "user" "a"]
    [RawMsg.mk2 "user" "b", RawMsg.mk2 "assistant" "c"] _).2 (by decide)

/-- C6: error responses are a function of the status code alone — two backend
failures with the same status code yield identical responses, and the backend
error message never influences (so never appears in) the client-visible body,
for both /send_api and /end_debate. -/
theorem error_responses_independent_of_backend_message (st : Option Nat) (m1 m2 : String) :
    sendApiHandle (.apiError st m1) = sendApiHandle (.apiError st m2) ∧
    sendApiHandle (.otherError m1) = sendApiHandle (.otherError m2) ∧
    endDebateHandle (.apiError st m1) = endDebateHandle (.apiError st m2) ∧
    endDebateHandle (.otherError m1) = endDebateHandle (.otherError m2) :=
  ⟨rfl, rfl, rfl, rfl⟩

/-- C7 counterexample: a reply delivered with surrounding whitespace: the
concatenation of the streamed fragments is the raw reply, while the
non-streaming mode returns it trimmed, so the two differ. -/
theorem streaming_concat_neq_nonstreaming_on_padded_reply :
    String.join (completeStreaming [" hi "]) ≠ completeNonStreaming [" hi "] := by decide

/-- C7 (amended): streaming yields the fragments in backend-delivery order and
their concatenation equals the final reply text; the non-streaming reply for an
equivalent request agrees with that concatenation whenever the reply text is
nonempty and carries no leading/trailing whitespace (otherwise non-streaming
trims it or substitutes the placeholder). -/
theorem streaming_fragments_and_reassembly (fragments : List String) :
    completeStreaming fragments = fragments ∧
    String.join (completeStreaming fragments) = finalReplyText fragments ∧
    (pyStrip (finalReplyText fragments) = finalReplyText fragments →
      finalReplyText fragments ≠ "" →
      String.join (completeStreaming fragments) = completeNonStreaming fragments) := by
  refine ⟨rfl, rfl, fun htrim hne => ?_⟩
  simp only [completeNonStreaming, processedText, completeStreaming]
  rw [if_neg hne, htrim]
  rfl

theorem streaming_fragments_and_reassembly_witness :
    String.join (completeStreaming ["h", "i"]) = completeNonStreaming ["h", "i"] :=
  (streaming_fragments_and_reassembly ["h", "i"]).2.2 (by decide) (by decide)

/-- C8: the Message Store load() is a total function of the medium state (so it
never raises), returns the empty mapping when the medium is absent, unreadable,
or holds data the decoder rejects, and returns the decoded mapping otherwise. -/
theorem load_store_fails_soft (m : Medium) :
    (m = .absent → loadStore m = []) ∧
    (m = .unreadable → loadStore m = []) ∧
    (∀ s, m = .stored s → decodeStore s = none → loadStore m = []) ∧
    (∀ s st, m = .stored s → decodeStore s = some st → loadStore m = st) := by
  refine ⟨?_, ?_, ?_, ?_⟩
  · rintro rfl; rfl
  · rintro rfl; rfl
  · rintro s rfl h
    simp [loadStore, h]
  · rintro s st rfl h
    simp [loadStore, h]

theorem load_store_fails_soft_witness :
    loadStore (.stored ['x']) = [] :=
  (load_store_fails_soft (.stored ['x'])).2.2.1 ['x'] rfl (by decide)

/-- C9 counterexample: a request carrying both a valid messages list and a
whitespace-only text field is not rejected: the messages branch wins, the
backend is consulted (the response depends on it), and the status is 200. -/
theorem send_api_blank_text_alongside_messages_not_rejected :
    pyStrip " " = "" ∧
    sendApi (some ⟨some (some [RawMsg.mk2 "user" "hi"]), some " ", none⟩)
        (fun _ _ => .success [some "ok"])
      = (200, [("message", "AIによってデータが処理されました。"), ("processed_text", "ok")]) ∧
    sendApi (some ⟨some (some [RawMsg.mk2 "user" "hi"]), some " ", none⟩)
        (fun _ _ => .otherError "x")
      ≠ sendApi (some ⟨some (some [RawMsg.mk2 "user" "hi"]), some " ", none⟩)
        (fun _ _ => .success [some "ok"]) := by
  decide

/-- C9 (amended): a /send_api request with a missing body, an empty messages
list, a message entry lacking role or content, neither field, or — in the
absence of a usable messages list — a whitespace-only text, is answered with
status 400, and the response is independent of the backend (no completion
request is issued). -/
theorem send_api_rejects_invalid_requests (req : Option SendApiRequest)
    (b1 b2 : Backend) (h : isBadSendApiRequest req = true) :
    (sendApi req b1).1 = 400 ∧ sendApi req b1 = sendApi req b2 := by
  match req with
  | none => exact ⟨rfl, rfl⟩
  | some ⟨some (some ms), tf, cf⟩ =>
      by_cases hempty : ms.isEmpty
      · constructor <;> simp [sendApi, parseSendApi, hempty]
      · have hval : (ms.all (fun m => m.hasKey "role" && m.hasKey "content")) = false := by
          simp only [isBadSendApiRequest, hempty, Bool.false_or] at h
          rw [List.any_eq_true] at h
          obtain ⟨m, hmem, hneg⟩ := h
          rw [Bool.eq_false_iff]
          intro hall
          rw [List.all_eq_true] at hall
          have := hall m hmem
          simp [this] at hneg
        constructor <;> simp [sendApi, parseSendApi, hempty, hval]
  | some ⟨some none, tf, cf⟩ =>
      match tf with
      | some t =>
          have ht : pyStrip t = "" := by simpa [isBadSendApiRequest] using h
          constructor <;> simp [sendApi, parseSendApi, ht]
      | none => exact ⟨rfl, rfl⟩
  | some ⟨none, tf, cf⟩ =>
      match tf with
      | some t =>
          have ht : pyStrip t = "" := by simpa [isBadSendApiRequest] using h
          constructor <;> simp [sendApi, parseSendApi, ht]
      | none => exact ⟨rfl, rfl⟩

theorem send_api_rejects_invalid_requests_witness :
    (sendApi (some ⟨some (some []), none, none⟩) (fun _ _ => .success [some "ok"])).1 = 400 :=
  (send_api_rejects_invalid_requests (some ⟨some (some []), none, none⟩)
    (fun _ _ => .success [some "ok"]) (fun _ _ => .otherError "x") (by decide)).1

/-- C10: in the /send_api text form, an absent or whitespace-only context field
makes the seeded conversation open with the built-in default system prompt. -/
theorem send_api_blank_context_uses_default_prompt (d : SendApiRequest) (t : String)
    (hm : d.messagesField = none ∨ d.messagesField = some none)
    (ht : d.textField = some t) (hne : pyStrip t ≠ "")
    (hc : d.contextField = none ∨ ∃ c, d.contextField = some c ∧ pyStrip c = "") :
    parseSendApi (some d)
      = .ok [RawMsg.mk2 "system" DEFAULT_SYSTEM_PROMPT, RawMsg.mk2 "user" (pyStrip t)] := by
  have hctx : pyStrip (d.contextField.getD "") = "" := by
    rcases hc with hc | ⟨c, hc, hcs⟩
    · rw [hc]
      decide
    · simp [hc, hcs]
  rcases hm with hm | hm <;> simp [parseSendApi, hm, ht, hne, hctx]

theorem send_api_blank_context_uses_default_prompt_witness :
    parseSendApi (some ⟨none, some "hello", some " "⟩)
      = .ok [RawMsg.mk2 "system" DEFAULT_SYSTEM_PROMPT, RawMsg.mk2 "user" (pyStrip "hello")] :=
  send_api_blank_context_uses_default_prompt _ _ (Or.inl rfl) rfl (by decide)
    (Or.inr ⟨" ", rfl, by decide⟩)

end MuPsd07
